import Mathlib

/-!
Verification of the generate → review → repair pipeline of the educational
concept visualizer (`src/app.py`).

The Python source is shallowly embedded:
* Python `str` values are Lean `String`s; the slicing / `strip` / `startswith` /
  `endswith` operations used by the source are modelled character-exactly by
  the `py*` helpers below (a Python string is its list of characters).
* Image bytes are `List Nat`.
* The outbound network calls are modelled as oracle parameters: each call site
  receives the response the network would return for that call, as an
  `Except String GenResponse` (`.error` = the client library raising).
* `json.loads` is an oracle parameter `loads : String → Option Json`
  (`none` = `json.JSONDecodeError`).  For concrete witnesses a small
  executable fragment of it (`jsonLoadsStrList`, arrays of plain strings)
  is provided.
* Streamlit session state is the explicit `SessionState` record; each button
  handler is a function from the pre-state (plus its oracles) to a
  `RunResult` holding the post-state, the outcome, and the generation calls
  performed.
-/

/-! ## Python string primitives -/

/-- Python `str.strip()`: remove leading and trailing whitespace. -/
def pyStrip (s : String) : String :=
  ⟨((s.data.dropWhile Char.isWhitespace).reverse.dropWhile Char.isWhitespace).reverse⟩

/-- Python `s.startswith(p)`. -/
def pyStartsWith (s p : String) : Bool :=
  p.data.isPrefixOf s.data

/-- Python `s.endswith(p)`. -/
def pyEndsWith (s p : String) : Bool :=
  p.data.isSuffixOf s.data

/-- Python `s[n:]`. -/
def pyDrop (s : String) (n : Nat) : String :=
  ⟨s.data.drop n⟩

/-- Python `s[:-n]` (for `n ≤ len(s)`; clamps at the empty string otherwise,
like Python). -/
def pyDropRight (s : String) (n : Nat) : String :=
  ⟨s.data.take (s.data.length - n)⟩

/-! ## JSON values

Values that `json.loads` can produce.  Numbers are modelled as integers
(no claim involves numeric payloads). -/

inductive Json where
  | null
  | bool (b : Bool)
  | num (n : Int)
  | str (s : String)
  | arr (elems : List Json)
  | obj (fields : List (String × Json))

/-- Python `repr` of a decoded JSON value (string escaping inside `repr` is
not modelled; no claim depends on it). -/
def Json.pyRepr : Json → String
  | .null => "None"
  | .bool true => "True"
  | .bool false => "False"
  | .num n => toString n
  | .str s => "\x27" ++ s ++ "\x27"
  | .arr xs => "[" ++ String.intercalate ", " (xs.attach.map (fun e => Json.pyRepr e.1)) ++ "]"
  | .obj fs =>
      "\x7b" ++
        String.intercalate ", "
          (fs.attach.map (fun e => "\x27" ++ e.1.1 ++ "\x27: " ++ Json.pyRepr e.1.2)) ++
        "\x7d"
decreasing_by
  · have h := List.sizeOf_lt_of_mem e.2
    simp_wf
    omega
  · have h := List.sizeOf_lt_of_mem e.2
    have h2 : sizeOf e.1.2 < sizeOf e.1 := by
      obtain ⟨a, b⟩ := e.1
      simp
    simp_wf
    omega

/-- Python `str()` of a decoded JSON value (as used by the fix-line
interpolation in the repair stage). -/
def Json.pyStr : Json → String
  | .str s => s
  | j => j.pyRepr

/-! ## Request / response model of the `google.genai` surface used -/

deriving instance DecidableEq for Except

/-- Model of `types.Blob`: a mime type plus raw bytes. -/
structure Blob where
  mime_type : String
  data : List Nat
deriving DecidableEq

/-- Model of `types.Part` as assembled for outbound requests: either a text part or an
inline-data (image) part. -/
inductive ReqPart where
  | text (s : String)
  | inline_data (b : Blob)
deriving DecidableEq

/-- A part of a response candidate's content (`part.inline_data` /
`part.text`, each possibly absent). -/
structure RespPart where
  inline_data : Option Blob
  text : Option String
deriving DecidableEq

/-- A response candidate; `content = none` models `candidate.content` being
`None`. -/
structure Candidate where
  content : Option (List RespPart)
deriving DecidableEq

/-- A `generate_content` response. -/
structure GenResponse where
  candidates : List Candidate
deriving DecidableEq

/-! ## `generate_image` (src/app.py lines 53-104) -/

/-- The shapes the `reference_image` argument can take: raw `bytes`, an
object with a `getvalue()` method (`BytesIO`-like), or anything else
(which the source rejects with `ValueError` inside the inner `try`). -/
inductive RefImage where
  | bytes (b : List Nat)
  | buffer (b : List Nat)
  | invalid
deriving DecidableEq

/-- Lines 67-72: obtain the reference bytes, `none` meaning the inner
`ValueError("Reference image must be bytes or BytesIO object.")`. -/
def prepareRefBytes : RefImage → Option (List Nat)
  | .bytes b => some b
  | .buffer b => some b
  | .invalid => none

/-- Lines 62-82: assemble the request parts.  Returns the parts list and
whether the reference-image preparation failed (the `st.warning` path:
the request then proceeds text-only). -/
def buildGenParts (prompt : String) (reference_image : Option RefImage) :
    List ReqPart × Bool :=
  match reference_image with
  | none => ([ReqPart.text prompt], false)
  | some r =>
    match prepareRefBytes r with
    | some image_bytes =>
        ([ReqPart.text prompt, ReqPart.inline_data ⟨"image/jpeg", image_bytes⟩], false)
    | none => ([ReqPart.text prompt], true)

/-- Lines 99-101: first part of the candidate content carrying inline data. -/
def firstInlineData : List RespPart → Option (List Nat)
  | [] => none
  | p :: rest =>
    match p.inline_data with
    | some b => some b.data
    | none => firstInlineData rest

/-- Lines 87-104: outcome of the network call and response validation, each
failure wrapped as `Image generation failed: ...` by the outer handler. -/
def parseGenResponse (net : Except String GenResponse) : Except String (List Nat) :=
  match net with
  | .error e => .error ("Image generation failed: " ++ e)
  | .ok response =>
    match response.candidates with
    | [] => .error "Image generation failed: Empty response from API."
    | candidate :: _ =>
      match candidate.content with
      | none => .error "Image generation failed: No content parts in API response."
      | some [] => .error "Image generation failed: No content parts in API response."
      | some parts =>
        match firstInlineData parts with
        | some d => .ok d
        | none => .error "Image generation failed: No image data found in response."

/-- Observable behaviour of one `generate_image` invocation: the request
parts actually sent (`none` if the call aborted before the network, i.e.
unconfigured client), the result, and whether the reference-preparation
warning fired. -/
structure GenResult where
  sent : Option (List ReqPart)
  result : Except String (List Nat)
  warned : Bool
deriving DecidableEq

/-- The function `generate_image(prompt, reference_image)` with the client-configured flag
and the network response as explicit inputs. -/
def generate_image (clientOk : Bool) (net : Except String GenResponse)
    (prompt : String) (reference_image : Option RefImage) : GenResult :=
  if !clientOk then
    { sent := none
      result := .error "Image generation failed: API client not configured. Please enter your API key."
      warned := false }
  else
    let pw := buildGenParts prompt reference_image
    { sent := some pw.1, result := parseGenResponse net, warned := pw.2 }

/-! ## `analyze_image_and_get_fixes` (src/app.py lines 106-206) -/

/-- Lines 178-179: the first text segment of the first candidate, `none`
when any step of the extraction fails (no candidates, `content` absent or
empty, first part without text — each of which the source converts to the
warn-and-return-`[]` path). -/
def critiqueRawText (net : Except String GenResponse) : Option String :=
  match net with
  | .error _ => none
  | .ok response =>
    match response.candidates with
    | [] => none
    | candidate :: _ =>
      match candidate.content with
      | none => none
      | some [] => none
      | some (p :: _) => p.text

/-- Lines 184-189: strip a leading ```` ```json ```` token and a trailing
```` ``` ```` token around the payload. -/
def cleanFence (raw_output : String) : String :=
  let cleaned := pyStrip raw_output
  let cleaned := if pyStartsWith cleaned "```json" then pyDrop cleaned 7 else cleaned
  let cleaned := if pyEndsWith cleaned "```" then pyDropRight cleaned 3 else cleaned
  pyStrip cleaned

/-- Lines 178-202: turn a critique response into the fix list plus the
warning flag (`true` on every degraded path). -/
def critiqueFixes (net : Except String GenResponse) (loads : String → Option Json) :
    List Json × Bool :=
  match critiqueRawText net with
  | none => ([], true)
  | some t =>
    match loads (cleanFence (pyStrip t)) with
    | some (Json.arr xs) => (xs, false)
    | _ => ([], true)

/-- Observable behaviour of one critique invocation: the fix list, whether a
warning was shown, and the inline image blob attached to the outbound
request (`none` if the call aborted before building it). -/
structure CritOutput where
  fixes : List Json
  warned : Bool
  sentImage : Option Blob

/-- The function `analyze_image_and_get_fixes(image_data, user_concept)`; the analyzed
image is attached with the fixed mime type `image/jpeg` (line 116-121). -/
def analyze_image_and_get_fixes (clientOk : Bool) (net : Except String GenResponse)
    (loads : String → Option Json) (image_data : List Nat)
    (user_concept : String) : CritOutput :=
  if !clientOk then { fixes := [], warned := true, sentImage := none }
  else
    let fw := critiqueFixes net loads
    { fixes := fw.1, warned := fw.2, sentImage := some ⟨"image/jpeg", image_data⟩ }

/-! ## Prompt templates

The triple-quoted Python f-strings, line content preserved (the incidental
indentation whitespace inside the source literals is not reproduced; no
claim depends on it). -/

/-- Lines 226-231: the base-character prompt. -/
def basePrompt (character_desc : String) : String :=
  "Create a detailed full-body image of: " ++ character_desc ++ ". " ++
  "This character will appear in multiple educational contexts. " ++
  "Focus on distinctive features that will remain consistent. " ++
  "Style: Bright, clear educational illustration, suitable for children."

/-- Lines 299-312: the stage-1 (draft) concept prompt. -/
def initialPrompt (concept : String) : String :=
  "Create an educational illustration showing " ++ concept ++ ".\n" ++
  "IMPORTANT CHARACTER GUIDELINES:\n" ++
  "1. Use the provided character image as exact reference.\n" ++
  "2. Maintain ALL physical features of the character (appearance, clothing, style).\n" ++
  "3. The character should be prominently featured in the scene.\n" ++
  "4. Keep the character\x27s proportions and style consistent.\n" ++
  "SCENE REQUIREMENTS:\n" ++
  "- Style: Clear educational diagram with bright colors\n" ++
  "- Make the concept easy to understand for students\n" ++
  "- Include labeled elements and simple explanations\n" ++
  "- Ensure the character is actively involved in demonstrating the concept\n" ++
  "QUALITY CHECK:\n" ++
  "- Verify all elements accurately represent the concept\n" ++
  "- Ensure educational accuracy in diagrams and labels"

/-- Line 325: the newline join of the dash-prefixed stringified fixes. -/
def fixInstructions (fixes : List Json) : String :=
  String.intercalate "\n" (fixes.map (fun fix => "- " ++ fix.pyStr))

/-- Lines 326-334: the stage-3 (repair) prompt, with the combined fix
directive interpolated in the middle. -/
def fixPrompt (concept fix_instructions : String) : String :=
  ("You are an expert educational illustrator.\n" ++
   "You have been given an image of " ++ concept ++ " that needs corrections.\n" ++
   "Apply these specific fixes:\n") ++
  fix_instructions ++
  ("\nIMPORTANT:\n" ++
   "1. Keep the main character from the original image (use it as a reference).\n" ++
   "2. Maintain all physical features of the character.\n" ++
   "3. Only change what is necessary to fix the listed issues.\n" ++
   "4. Ensure the final image is a clear, accurate educational diagram.")

/-- Lines 412-420: the free-form edit prompt. -/
def editPrompt (selected_concept edit_prompt : String) : String :=
  ("You are an expert educational illustrator.\n" ++
   "You have been given the following image of " ++ selected_concept ++ ".\n" ++
   "Apply these edits to the image:\n") ++
  edit_prompt ++
  ("\nIMPORTANT INSTRUCTIONS:\n" ++
   "1. Keep the main character from the original image (use it as a reference).\n" ++
   "2. Maintain all physical features of the character (appearance, clothing, style).\n" ++
   "3. Make the requested changes clearly visible and relevant to the educational concept.\n" ++
   "4. Ensure the final image remains a clear educational diagram.")

/-! ## Session store -/

/-- Python-dict lookup on an insertion-ordered association list. -/
def dictGet {α : Type} : List (String × α) → String → Option α
  | [], _ => none
  | (k, v) :: rest, key => if k = key then some v else dictGet rest key

/-- Python-dict assignment: overwrite in place if the key exists, else append
at the end. -/
def dictSet {α : Type} : List (String × α) → String → α → List (String × α)
  | [], key, v => [(key, v)]
  | (k, w) :: rest, key, v =>
    if k = key then (key, v) :: rest else (k, w) :: dictSet rest key v

/-- The `st.session_state` fields the pipeline touches (lines 10-38). -/
structure SessionState where
  clientConfigured : Bool
  base_character : Option (List Nat)
  api_calls : Nat
  concept_images : List (String × List Nat)
  character_description : String
deriving DecidableEq

/-- How a button-handler run ended: a pre-flight guard error (nothing ran),
the `except` branch (a generation failure surfaced via `st.error`), or
normal completion. -/
inductive HandlerOutcome where
  | notRun (msg : String)
  | failed (msg : String)
  | completed
deriving DecidableEq

/-- Whether the outcome is the `except`-branch (`GenerationFailed`) one. -/
def HandlerOutcome.isFailed : HandlerOutcome → Bool
  | .failed _ => true
  | _ => false

/-- Observable behaviour of one button-handler run: the post-state, the
outcome, the `generate_image` invocations in order, and the final value of
the handler-local draft variable (`initial_img_data`), which Streamlit
discards when the script run ends. -/
structure RunResult where
  state : SessionState
  outcome : HandlerOutcome
  genCalls : List GenResult
  draftLocal : Option (List Nat)
deriving DecidableEq

/-- The `Generate Base Character` button handler (lines 218-247). -/
def gen_base_character (s : SessionState) (character_desc : String)
    (net : Except String GenResponse) : RunResult :=
  if !s.clientConfigured then
    { state := s, outcome := .notRun "Please configure your API key first",
      genCalls := [], draftLocal := none }
  else if pyStrip character_desc = "" then
    { state := s, outcome := .notRun "Please provide a character description.",
      genCalls := [], draftLocal := none }
  else
    let g := generate_image s.clientConfigured net (basePrompt character_desc) none
    match g.result with
    | .error e =>
      { state := s, outcome := .failed ("Error generating base character: " ++ e),
        genCalls := [g], draftLocal := none }
    | .ok img_data =>
      { state := { s with base_character := some img_data,
                          character_description := character_desc,
                          api_calls := s.api_calls + 1 },
        outcome := .completed, genCalls := [g], draftLocal := none }

/-- The `Generate Concept Scene` button handler (lines 288-361): stage 1
draft, stage 2 critique, stage 3 conditional repair.  The `if fixes:` /
`else` of the source appears here as `if crit.fixes.isEmpty` with the
branches swapped. -/
def gen_scene_handler (s : SessionState) (concept : String)
    (draftNet repairNet critNet : Except String GenResponse)
    (loads : String → Option Json) : RunResult :=
  if !s.clientConfigured then
    { state := s, outcome := .notRun "Please configure your API key first",
      genCalls := [], draftLocal := none }
  else
    match s.base_character with
    | none =>
      { state := s, outcome := .notRun "Please generate or upload a base character first",
        genCalls := [], draftLocal := none }
    | some base =>
      if pyStrip concept = "" then
        { state := s, outcome := .notRun "Please select or enter an educational concept.",
          genCalls := [], draftLocal := none }
      else
        let g1 := generate_image s.clientConfigured draftNet (initialPrompt concept)
          (some (.bytes base))
        match g1.result with
        | .error e =>
          { state := s, outcome := .failed ("Error generating scene: " ++ e),
            genCalls := [g1], draftLocal := none }
        | .ok initial_img_data =>
          let s1 := { s with api_calls := s.api_calls + 1 }
          let crit := analyze_image_and_get_fixes s1.clientConfigured critNet loads
            initial_img_data concept
          if crit.fixes.isEmpty then
            { state := { s1 with
                concept_images := dictSet s1.concept_images concept initial_img_data },
              outcome := .completed, genCalls := [g1], draftLocal := some initial_img_data }
          else
            let g2 := generate_image s1.clientConfigured repairNet
              (fixPrompt concept (fixInstructions crit.fixes))
              (some (.bytes initial_img_data))
            match g2.result with
            | .error e =>
              { state := s1, outcome := .failed ("Error generating scene: " ++ e),
                genCalls := [g1, g2], draftLocal := some initial_img_data }
            | .ok final_img_data =>
              { state := { s1 with
                  concept_images := dictSet s1.concept_images concept final_img_data,
                  api_calls := s1.api_calls + 1 },
                outcome := .completed, genCalls := [g1, g2],
                draftLocal := some initial_img_data }

/-- The `Apply Edits` button handler (lines 388-426).  The dict read of the
selected entry happens in the page body (line 396); through the UI the
selected label is always one of the map keys (the selectbox is populated
from them), so the `none` branch is unreachable via the UI and stands for
the `KeyError` a direct call would raise. -/
def apply_edits (s : SessionState) (selected_concept : String) (edit_prompt : String)
    (net : Except String GenResponse) : RunResult :=
  match dictGet s.concept_images selected_concept with
  | none =>
    { state := s, outcome := .failed "KeyError", genCalls := [], draftLocal := none }
  | some current_image_data =>
    if pyStrip edit_prompt = "" then
      { state := s, outcome := .notRun "Please enter an edit description.",
        genCalls := [], draftLocal := none }
    else
      let g := generate_image s.clientConfigured net
        (editPrompt selected_concept edit_prompt) (some (.bytes current_image_data))
      match g.result with
      | .error e =>
        { state := s, outcome := .failed ("Error applying edits: " ++ e),
          genCalls := [g], draftLocal := none }
      | .ok edited_img_data =>
        { state := { s with concept_images :=
            (dictSet s.concept_images ("Edited_" ++ selected_concept) edited_img_data) },
          outcome := .completed, genCalls := [g], draftLocal := none }

/-! ## Counting helpers -/

/-- Whether a `generate_image` invocation returned image bytes. -/
def genSucceeded (g : GenResult) : Bool :=
  match g.result with
  | .ok _ => true
  | .error _ => false

/-- Number of successful generation calls in a handler run. -/
def countSuccessfulGen (r : RunResult) : Nat :=
  r.genCalls.countP genSucceeded

/-- Number of text segments in a request. -/
def countTextParts (ps : List ReqPart) : Nat :=
  ps.countP (fun p => match p with | .text _ => true | _ => false)

/-- Number of inline-image segments in a request. -/
def countImageParts (ps : List ReqPart) : Nat :=
  ps.countP (fun p => match p with | .inline_data _ => true | _ => false)

/-! ## A concrete fragment of `json.loads`

`jsonLoadsStrList` decodes JSON arrays of backslash-free strings and
reports every other payload as not valid JSON (`none`).  It instantiates
the `loads` oracle at the concrete inputs the theorems below use; on each
of those inputs it agrees with `json.loads`. -/

/-- Skip JSON whitespace. -/
def skipWsChars : List Char → List Char
  | [] => []
  | c :: cs => if c.isWhitespace then skipWsChars cs else c :: cs

/-- Body of a JSON string literal after the opening quote (escape sequences
rejected). -/
def strLitBody : List Char → String → Option (String × List Char)
  | [], _ => none
  | c :: cs, acc =>
    if c = '"' then some (acc, cs)
    else if c = '\\' then none
    else strLitBody cs (acc.push c)

/-- Comma-separated string literals up to the closing bracket. -/
def parseItemsAux : Nat → List Char → Option (List String × List Char)
  | 0, _ => none
  | fuel + 1, cs =>
    match skipWsChars cs with
    | '"' :: rest =>
      match strLitBody rest "" with
      | none => none
      | some (s, rest2) =>
        match skipWsChars rest2 with
        | ',' :: rest3 =>
          match parseItemsAux fuel rest3 with
          | some (xs, rest4) => some (s :: xs, rest4)
          | none => none
        | ']' :: rest3 => some ([s], rest3)
        | _ => none
    | _ => none

/-- Decode a JSON array of strings; `none` on anything else. -/
def jsonLoadsStrList (s : String) : Option Json :=
  match skipWsChars s.data with
  | '[' :: rest =>
    match skipWsChars rest with
    | ']' :: rest2 => if (skipWsChars rest2).isEmpty then some (.arr []) else none
    | _ =>
      match parseItemsAux (rest.length + 1) rest with
      | some (items, rest2) =>
        if (skipWsChars rest2).isEmpty then some (.arr (items.map Json.str)) else none
      | none => none
  | _ => none

/-! ## Concrete oracles for witnesses and counterexamples -/

/-- A network response whose first candidate carries one text part. -/
def mkTextNet (t : String) : Except String GenResponse :=
  .ok ⟨[⟨some [⟨none, some t⟩]⟩]⟩

/-- A network response whose first candidate carries one inline-image part
(the response blob deliberately labels its bytes `image/png`). -/
def okImageNet (b : List Nat) : Except String GenResponse :=
  .ok ⟨[⟨some [⟨some ⟨"image/png", b⟩, none⟩]⟩]⟩

/-! ## Store and string lemmas -/

lemma dictGet_dictSet_self {α : Type} (m : List (String × α)) (k : String) (v : α) :
    dictGet (dictSet m k v) k = some v := by
  induction m with
  | nil => simp [dictGet, dictSet]
  | cons hd t ih =>
    obtain ⟨k₀, v₀⟩ := hd
    by_cases hk : k₀ = k
    · subst hk
      simp [dictGet, dictSet]
    · simp [dictGet, dictSet, hk, ih]

lemma dictGet_dictSet_ne {α : Type} (m : List (String × α)) (k k' : String) (v : α)
    (h : k' ≠ k) : dictGet (dictSet m k v) k' = dictGet m k' := by
  induction m with
  | nil => simp [dictGet, dictSet, Ne.symm h]
  | cons hd t ih =>
    obtain ⟨k₀, v₀⟩ := hd
    by_cases hk : k₀ = k
    · subst hk
      simp [dictGet, dictSet, Ne.symm h]
    · simp [dictGet, dictSet, hk, ih]

lemma edited_label_ne (sel : String) : "Edited_" ++ sel ≠ sel := by
  intro h
  have hlen := congrArg String.length h
  rw [String.length_append] at hlen
  have h7 : ("Edited_" : String).length = 7 := rfl
  omega

lemma dropWhile_append_eq_self {p : Char → Bool} {l1 l2 : List Char}
    (h1 : l1.dropWhile p = l1) (hne : l1 ≠ []) :
    (l1 ++ l2).dropWhile p = l1 ++ l2 := by
  cases l1 with
  | nil => exact absurd rfl hne
  | cons c t =>
    have hc : p c = false := by
      cases hpc : p c
      · rfl
      · exfalso
        rw [List.dropWhile_cons_of_pos hpc] at h1
        have hlen := congrArg List.length h1
        have hle := (List.dropWhile_sublist (l := t) p).length_le
        simp at hlen
        omega
    have hnc : ¬ p c = true := by simp [hc]
    simp [hnc]

lemma pyStrip_json_sandwich (body : String) :
    pyStrip ("```json" ++ body ++ "```") = "```json" ++ body ++ "```" := by
  apply String.ext
  show ((("```json" ++ body ++ "```").data.dropWhile Char.isWhitespace).reverse.dropWhile
      Char.isWhitespace).reverse = _
  rw [String.data_append, String.data_append, List.append_assoc]
  rw [dropWhile_append_eq_self (by decide) (by decide)]
  rw [List.reverse_append, List.reverse_append]
  rw [List.append_assoc]
  rw [dropWhile_append_eq_self (by decide) (by decide)]
  simp

lemma cleanFence_json_fenced (body : String) :
    cleanFence ("```json" ++ body ++ "```") = pyStrip body := by
  have hstart : pyStartsWith ("```json" ++ body ++ "```") "```json" = true := by
    unfold pyStartsWith
    rw [String.data_append, String.data_append, List.append_assoc]
    rw [List.isPrefixOf_iff_prefix]
    exact List.prefix_append _ _
  have hdrop : pyDrop ("```json" ++ body ++ "```") 7 = body ++ "```" := by
    apply String.ext
    show (("```json" ++ body ++ "```").data.drop 7) = _
    rw [String.data_append, String.data_append, List.append_assoc, String.data_append]
    exact List.drop_left' (by decide)
  have hend : pyEndsWith (body ++ "```") "```" = true := by
    unfold pyEndsWith
    rw [String.data_append, List.isSuffixOf_iff_suffix]
    exact List.suffix_append _ _
  have htake : pyDropRight (body ++ "```") 3 = body := by
    apply String.ext
    show ((body ++ "```").data.take ((body ++ "```").data.length - 3)) = _
    rw [String.data_append]
    have h3 : ("```" : String).data.length = 3 := rfl
    rw [List.length_append, h3, Nat.add_sub_cancel]
    exact List.take_left' rfl
  simp only [cleanFence, pyStrip_json_sandwich, hstart, if_true, hdrop, hend, htake]

/-! ## The claims -/

/-- C8: for every instruction text that is non-empty after trimming, the
request `generate_image` builds contains exactly one text segment; exactly
one image segment when a decodable reference (raw bytes or a
`getvalue()`-style buffer) is supplied and zero when none is; and an
undecodable reference does not fail the call — the very same request and
result as the text-only call are produced, with the warning flag set. -/
theorem C8_request_shape (p : String) (net : Except String GenResponse) (b : List Nat)
    (h : pyStrip p ≠ "") :
    (generate_image true net p none).sent = some [ReqPart.text p] ∧
    countTextParts [ReqPart.text p] = 1 ∧
    countImageParts [ReqPart.text p] = 0 ∧
    (generate_image true net p (some (.bytes b))).sent
      = some [ReqPart.text p, ReqPart.inline_data ⟨"image/jpeg", b⟩] ∧
    (generate_image true net p (some (.buffer b))).sent
      = some [ReqPart.text p, ReqPart.inline_data ⟨"image/jpeg", b⟩] ∧
    countTextParts [ReqPart.text p, ReqPart.inline_data ⟨"image/jpeg", b⟩] = 1 ∧
    countImageParts [ReqPart.text p, ReqPart.inline_data ⟨"image/jpeg", b⟩] = 1 ∧
    (generate_image true net p (some .invalid))
      = { generate_image true net p none with warned := true } ∧
    (generate_image true net p none).warned = false :=
  ⟨rfl, rfl, rfl, rfl, rfl, rfl, rfl, rfl, rfl⟩

/-- Witness for C8 at a concrete input. -/
theorem C8_request_shape_witness :
    (generate_image true (.error "x") "hello" (some (.invalid : RefImage)))
      = { generate_image true (.error "x") "hello" none with warned := true } :=
  (C8_request_shape "hello" (.error "x") [1] (by decide)).2.2.2.2.2.2.2.1

/-- C10: every image attached to an outbound request — the reference image
in `generate_image` (either decodable shape) and the analyzed image in
`analyze_image_and_get_fixes` — carries the fixed mime type `image/jpeg`,
whatever the bytes are. -/
theorem C10_mime_always_jpeg (p : String) (b : List Nat)
    (net : Except String GenResponse) (loads : String → Option Json)
    (image_data : List Nat) (concept : String) :
    (buildGenParts p (some (.bytes b))).1
      = [ReqPart.text p, ReqPart.inline_data ⟨"image/jpeg", b⟩] ∧
    (buildGenParts p (some (.buffer b))).1
      = [ReqPart.text p, ReqPart.inline_data ⟨"image/jpeg", b⟩] ∧
    (analyze_image_and_get_fixes true net loads image_data concept).sentImage
      = some ⟨"image/jpeg", image_data⟩ :=
  ⟨rfl, rfl, rfl⟩

/-- C3: `analyze_image_and_get_fixes` is total (it never raises), and on
every input it either returns the empty fix list together with a warning,
or the critique text was successfully extracted and decoded as a JSON
list, which is returned verbatim.  In particular every failure —
unconfigured client, raising call, absent text, invalid JSON, non-list
payload — yields `[]` plus a warning. -/
theorem C3_critique_never_fails (clientOk : Bool) (net : Except String GenResponse)
    (loads : String → Option Json) (image_data : List Nat) (concept : String) :
    ((analyze_image_and_get_fixes clientOk net loads image_data concept).fixes = [] ∧
     (analyze_image_and_get_fixes clientOk net loads image_data concept).warned = true) ∨
    (clientOk = true ∧ ∃ t xs, critiqueRawText net = some t ∧
      loads (cleanFence (pyStrip t)) = some (Json.arr xs) ∧
      (analyze_image_and_get_fixes clientOk net loads image_data concept).fixes = xs ∧
      (analyze_image_and_get_fixes clientOk net loads image_data concept).warned = false) := by
  cases clientOk with
  | false => left; exact ⟨rfl, rfl⟩
  | true =>
    cases ht : critiqueRawText net with
    | none =>
      left
      constructor <;> simp [analyze_image_and_get_fixes, critiqueFixes, ht]
    | some t =>
      cases hl : loads (cleanFence (pyStrip t)) with
      | none =>
        left
        constructor <;> simp [analyze_image_and_get_fixes, critiqueFixes, ht, hl]
      | some j =>
        cases j
        case arr xs =>
          right
          exact ⟨rfl, t, xs, rfl, hl,
            by simp [analyze_image_and_get_fixes, critiqueFixes, ht, hl],
            by simp [analyze_image_and_get_fixes, critiqueFixes, ht, hl]⟩
        all_goals
          (left; constructor <;> simp [analyze_image_and_get_fixes, critiqueFixes, ht, hl])

/-- C7: applying a free-form edit to a stored concept entry completes by
creating the entry under the derived label `Edited_<origin>`, distinct
from the origin label; the origin entry is left untouched; and the origin
label was present in the map when the edited entry was created. -/
theorem C7_edited_entry (s : SessionState) (selected edit_prompt : String)
    (net : Except String GenResponse) (cur ed : List Nat)
    (hcur : dictGet s.concept_images selected = some cur)
    (hne : pyStrip edit_prompt ≠ "")
    (hok : (generate_image s.clientConfigured net (editPrompt selected edit_prompt)
      (some (.bytes cur))).result = .ok ed) :
    (apply_edits s selected edit_prompt net).outcome = .completed ∧
    dictGet (apply_edits s selected edit_prompt net).state.concept_images
      ("Edited_" ++ selected) = some ed ∧
    ("Edited_" ++ selected) ≠ selected ∧
    dictGet (apply_edits s selected edit_prompt net).state.concept_images selected
      = some cur ∧
    (dictGet s.concept_images selected).isSome = true := by
  have hr : apply_edits s selected edit_prompt net =
      { state := { s with concept_images :=
          (dictSet s.concept_images ("Edited_" ++ selected) ed) },
        outcome := .completed,
        genCalls := [generate_image s.clientConfigured net
          (editPrompt selected edit_prompt) (some (.bytes cur))],
        draftLocal := none } := by
    simp only [apply_edits, hcur]
    rw [if_neg hne]
    simp [hok]
  rw [hr]
  refine ⟨rfl, dictGet_dictSet_self _ _ _, edited_label_ne selected, ?_, ?_⟩
  · rw [dictGet_dictSet_ne _ _ _ _ (Ne.symm (edited_label_ne selected))]
    exact hcur
  · rw [hcur]; rfl

/-- Witness for C7 at a concrete input. -/
theorem C7_edited_entry_witness :
    (apply_edits ⟨true, some [0], 0, [("Water cycle diagram", [5])], ""⟩
        "Water cycle diagram" "Add a label" (okImageNet [9])).outcome
      = .completed ∧
    dictGet (apply_edits ⟨true, some [0], 0, [("Water cycle diagram", [5])], ""⟩
        "Water cycle diagram" "Add a label" (okImageNet [9])).state.concept_images
        ("Edited_" ++ "Water cycle diagram") = some [9] :=
  ⟨(C7_edited_entry ⟨true, some [0], 0, [("Water cycle diagram", [5])], ""⟩
      "Water cycle diagram" "Add a label" (okImageNet [9]) [5] [9]
      rfl (by decide) rfl).1,
   (C7_edited_entry ⟨true, some [0], 0, [("Water cycle diagram", [5])], ""⟩
      "Water cycle diagram" "Add a label" (okImageNet [9]) [5] [9]
      rfl (by decide) rfl).2.1⟩

/-- C6: when the stage-1 draft generation fails, the concept run ends in the
generation-failed outcome and the whole session store — concept map,
counter, character — is exactly what it was before the run. -/
theorem C6_draft_failure_leaves_store (bc : List Nat) (calls : Nat)
    (imgs : List (String × List Nat)) (cd concept : String)
    (draftNet repairNet critNet : Except String GenResponse)
    (loads : String → Option Json) (e : String)
    (hconcept : pyStrip concept ≠ "")
    (hdraft : (generate_image true draftNet (initialPrompt concept)
      (some (.bytes bc))).result = .error e) :
    gen_scene_handler ⟨true, some bc, calls, imgs, cd⟩ concept
        draftNet repairNet critNet loads
      = { state := ⟨true, some bc, calls, imgs, cd⟩,
          outcome := .failed ("Error generating scene: " ++ e),
          genCalls := [generate_image true draftNet (initialPrompt concept)
            (some (.bytes bc))],
          draftLocal := none } := by
  simp only [gen_scene_handler]
  rw [if_neg hconcept]
  simp [hdraft]

/-- C4: when the draft succeeds and critique returns the empty fix list, the
run accepts the draft: the stored image for the concept label equals the
draft bytes and exactly one generation call was made (no repair call). -/
theorem C4_empty_fixes_accepts_draft (bc : List Nat) (calls : Nat)
    (imgs : List (String × List Nat)) (cd concept : String)
    (draftNet repairNet critNet : Except String GenResponse)
    (loads : String → Option Json) (d : List Nat)
    (hconcept : pyStrip concept ≠ "")
    (hdraft : (generate_image true draftNet (initialPrompt concept)
      (some (.bytes bc))).result = .ok d)
    (hfix : (analyze_image_and_get_fixes true critNet loads d concept).fixes = []) :
    gen_scene_handler ⟨true, some bc, calls, imgs, cd⟩ concept
        draftNet repairNet critNet loads
      = { state := ⟨true, some bc, calls + 1, dictSet imgs concept d, cd⟩,
          outcome := .completed,
          genCalls := [generate_image true draftNet (initialPrompt concept)
            (some (.bytes bc))],
          draftLocal := some d } ∧
    dictGet (gen_scene_handler ⟨true, some bc, calls, imgs, cd⟩ concept
        draftNet repairNet critNet loads).state.concept_images concept = some d := by
  have hr : gen_scene_handler ⟨true, some bc, calls, imgs, cd⟩ concept
      draftNet repairNet critNet loads
    = { state := ⟨true, some bc, calls + 1, dictSet imgs concept d, cd⟩,
        outcome := .completed,
        genCalls := [generate_image true draftNet (initialPrompt concept)
          (some (.bytes bc))],
        draftLocal := some d } := by
    simp only [gen_scene_handler]
    rw [if_neg hconcept]
    simp [hdraft, hfix]
  exact ⟨hr, by rw [hr]; exact dictGet_dictSet_self _ _ _⟩

/-- C5: when critique returns a non-empty fix list, exactly one additional
repair generation call is made (two calls in all), the repair request
anchors on the draft image bytes — not the original character reference —
and its instruction text contains the fixes joined one per line. -/
theorem C5_repair_uses_draft_and_all_fixes (bc : List Nat) (calls : Nat)
    (imgs : List (String × List Nat)) (cd concept : String)
    (draftNet repairNet critNet : Except String GenResponse)
    (loads : String → Option Json) (d : List Nat) (fs : List Json)
    (hconcept : pyStrip concept ≠ "")
    (hdraft : (generate_image true draftNet (initialPrompt concept)
      (some (.bytes bc))).result = .ok d)
    (hfix : (analyze_image_and_get_fixes true critNet loads d concept).fixes = fs)
    (hne : fs ≠ []) :
    (gen_scene_handler ⟨true, some bc, calls, imgs, cd⟩ concept
        draftNet repairNet critNet loads).genCalls.map GenResult.sent
      = [some [ReqPart.text (initialPrompt concept),
               ReqPart.inline_data ⟨"image/jpeg", bc⟩],
         some [ReqPart.text (fixPrompt concept (fixInstructions fs)),
               ReqPart.inline_data ⟨"image/jpeg", d⟩]] ∧
    (∃ pre post, fixPrompt concept (fixInstructions fs)
      = pre ++ fixInstructions fs ++ post) := by
  have hni : fs.isEmpty = false := by
    cases fs with
    | nil => exact absurd rfl hne
    | cons a l => rfl
  constructor
  · simp only [gen_scene_handler]
    rw [if_neg hconcept]
    simp [hdraft, hfix, hni]
    cases (generate_image true repairNet (fixPrompt concept (fixInstructions fs))
      (some (RefImage.bytes d))).result <;> rfl
  · exact ⟨"You are an expert educational illustrator.\n" ++
      "You have been given an image of " ++ concept ++ " that needs corrections.\n" ++
      "Apply these specific fixes:\n",
      "\nIMPORTANT:\n" ++
      "1. Keep the main character from the original image (use it as a reference).\n" ++
      "2. Maintain all physical features of the character.\n" ++
      "3. Only change what is necessary to fix the listed issues.\n" ++
      "4. Ensure the final image is a clear, accurate educational diagram.", rfl⟩

/-- C1 (amended): when the draft succeeds, critique demands fixes, and the
repair generation fails, the run ends in the generation-failed outcome and
the draft is NOT retained for the caller: the post-run session store is the
pre-run store with only the call counter incremented for the successful
draft — the draft bytes survive only in the discarded handler-local
variable. -/
theorem C1_amended_repair_failure (bc : List Nat) (calls : Nat)
    (imgs : List (String × List Nat)) (cd concept : String)
    (draftNet repairNet critNet : Except String GenResponse)
    (loads : String → Option Json) (d : List Nat) (e : String)
    (hconcept : pyStrip concept ≠ "")
    (hdraft : (generate_image true draftNet (initialPrompt concept)
      (some (.bytes bc))).result = .ok d)
    (hfix : (analyze_image_and_get_fixes true critNet loads d concept).fixes ≠ [])
    (hrep : (generate_image true repairNet
      (fixPrompt concept (fixInstructions
        (analyze_image_and_get_fixes true critNet loads d concept).fixes))
      (some (.bytes d))).result = .error e) :
    gen_scene_handler ⟨true, some bc, calls, imgs, cd⟩ concept
        draftNet repairNet critNet loads
      = { state := ⟨true, some bc, calls + 1, imgs, cd⟩,
          outcome := .failed ("Error generating scene: " ++ e),
          genCalls := [generate_image true draftNet (initialPrompt concept)
              (some (.bytes bc)),
            generate_image true repairNet
              (fixPrompt concept (fixInstructions
                (analyze_image_and_get_fixes true critNet loads d concept).fixes))
              (some (.bytes d))],
          draftLocal := some d } := by
  have hni : (analyze_image_and_get_fixes true critNet loads d concept).fixes.isEmpty
      = false := by
    cases hfx : (analyze_image_and_get_fixes true critNet loads d concept).fixes with
    | nil => exact absurd hfx hfix
    | cons a l => rfl
  simp only [gen_scene_handler]
  rw [if_neg hconcept]
  simp [hdraft, hni, hrep]

/-- C1 counterexample: a concrete run in which the draft (`[1,2,3]`)
succeeds, critique returns one fix, and the repair call fails.  The run
ends generation-failed and the handler-local draft was `[1,2,3]`, yet the
post-run session store holds no concept entry at all and the character
slot still holds `[0]` — the draft is not retrievable by the caller,
contradicting the claim. -/
theorem C1_counterexample_draft_dropped :
    (gen_scene_handler ⟨true, some [0], 0, [], ""⟩ "Photosynthesis process"
        (okImageNet [1, 2, 3]) (.error "boom") (mkTextNet "[\"add arrow\"]")
        jsonLoadsStrList).draftLocal = some [1, 2, 3] ∧
    (gen_scene_handler ⟨true, some [0], 0, [], ""⟩ "Photosynthesis process"
        (okImageNet [1, 2, 3]) (.error "boom") (mkTextNet "[\"add arrow\"]")
        jsonLoadsStrList).outcome.isFailed = true ∧
    (gen_scene_handler ⟨true, some [0], 0, [], ""⟩ "Photosynthesis process"
        (okImageNet [1, 2, 3]) (.error "boom") (mkTextNet "[\"add arrow\"]")
        jsonLoadsStrList).state.concept_images = [] ∧
    (gen_scene_handler ⟨true, some [0], 0, [], ""⟩ "Photosynthesis process"
        (okImageNet [1, 2, 3]) (.error "boom") (mkTextNet "[\"add arrow\"]")
        jsonLoadsStrList).state.base_character = some [0] ∧
    ([0] : List Nat) ≠ [1, 2, 3] :=
  ⟨rfl, rfl, rfl, rfl, by decide⟩

/-- Witness for the amended C1 at a concrete input. -/
theorem C1_amended_repair_failure_witness :
    gen_scene_handler ⟨true, some [0], 0, [], ""⟩ "Photosynthesis process"
        (okImageNet [1, 2, 3]) (.error "boom") (mkTextNet "[\"add arrow\"]")
        jsonLoadsStrList
      = { state := ⟨true, some [0], 1, [], ""⟩,
          outcome := .failed ("Error generating scene: " ++
            ("Image generation failed: " ++ "boom")),
          genCalls := [generate_image true (okImageNet [1, 2, 3])
              (initialPrompt "Photosynthesis process") (some (.bytes [0])),
            generate_image true (.error "boom")
              (fixPrompt "Photosynthesis process" (fixInstructions
                (analyze_image_and_get_fixes true (mkTextNet "[\"add arrow\"]")
                  jsonLoadsStrList [1, 2, 3] "Photosynthesis process").fixes))
              (some (.bytes [1, 2, 3]))],
          draftLocal := some [1, 2, 3] } :=
  C1_amended_repair_failure [0] 0 [] "" "Photosynthesis process"
    (okImageNet [1, 2, 3]) (.error "boom") (mkTextNet "[\"add arrow\"]")
    jsonLoadsStrList [1, 2, 3] ("Image generation failed: " ++ "boom")
    (by decide) rfl
    (fun h => List.cons_ne_nil (Json.str "add arrow") []
      ((rfl : (analyze_image_and_get_fixes true (mkTextNet "[\"add arrow\"]")
        jsonLoadsStrList [1, 2, 3] "Photosynthesis process").fixes
          = [Json.str "add arrow"]).symm.trans h))
    rfl

/-- C2 (amended): the call counter is a monotonic non-negative `Nat`; the
character-creation and concept handlers increment it by exactly the number
of successful generation calls of the run, while the free-form edit
handler leaves it unchanged even though a successful edit performs one
successful generation call. -/
theorem C2_amended_counter :
    (∀ (s : SessionState) (desc : String) (net : Except String GenResponse),
      (gen_base_character s desc net).state.api_calls
        = s.api_calls + countSuccessfulGen (gen_base_character s desc net)) ∧
    (∀ (s : SessionState) (concept : String)
      (dN rN cN : Except String GenResponse) (loads : String → Option Json),
      (gen_scene_handler s concept dN rN cN loads).state.api_calls
        = s.api_calls + countSuccessfulGen (gen_scene_handler s concept dN rN cN loads)) ∧
    (∀ (s : SessionState) (sel ep : String) (net : Except String GenResponse),
      (apply_edits s sel ep net).state.api_calls = s.api_calls) := by
  refine ⟨?_, ?_, ?_⟩
  · intro s desc net
    unfold gen_base_character
    dsimp only
    split
    · simp [countSuccessfulGen]
    split
    · simp [countSuccessfulGen]
    · split <;> simp_all [countSuccessfulGen, genSucceeded]
  · intro s concept dN rN cN loads
    unfold gen_scene_handler
    dsimp only
    split
    · simp [countSuccessfulGen]
    split
    · simp [countSuccessfulGen]
    split
    · simp [countSuccessfulGen]
    split
    · simp_all [countSuccessfulGen, genSucceeded]
    split
    · simp_all [countSuccessfulGen, genSucceeded]
    split <;> simp_all [countSuccessfulGen, genSucceeded]
  · intro s sel ep net
    unfold apply_edits
    dsimp only
    split
    · rfl
    split
    · rfl
    split <;> rfl

/-- C2 counterexample: a concrete successful free-form edit makes exactly one
successful generation call, yet the counter does not increase by one —
refuting "the counter increases by exactly the number of successful
generation calls" for the edit operation. -/
theorem C2_counterexample_edit_not_counted :
    ¬ ((apply_edits ⟨true, some [0], 0, [("Water cycle diagram", [5])], ""⟩
          "Water cycle diagram" "Add a label" (okImageNet [9])).state.api_calls
        = 0 + countSuccessfulGen (apply_edits ⟨true, some [0], 0,
            [("Water cycle diagram", [5])], ""⟩ "Water cycle diagram"
            "Add a label" (okImageNet [9]))) ∧
    countSuccessfulGen (apply_edits ⟨true, some [0], 0,
        [("Water cycle diagram", [5])], ""⟩ "Water cycle diagram"
        "Add a label" (okImageNet [9])) = 1 ∧
    (apply_edits ⟨true, some [0], 0, [("Water cycle diagram", [5])], ""⟩
        "Water cycle diagram" "Add a label" (okImageNet [9])).outcome
      = .completed :=
  ⟨by decide, rfl, rfl⟩

/-- C9 (amended): critique response handling extracts the first text segment
of the first candidate and feeds it, doubly stripped, through the fence
cleaner into the JSON parse, returning the decoded list (or `[]`); the
fence wrapping that is stripped consists of a leading ```` ```json ````
token and a trailing ```` ``` ```` token — for any payload wrapped in
exactly that way the cleaner yields the stripped body. -/
theorem C9_amended_fence_handling (critNet : Except String GenResponse)
    (loads : String → Option Json) (image_data : List Nat) (concept t : String)
    (h : critiqueRawText critNet = some t) :
    ((analyze_image_and_get_fixes true critNet loads image_data concept).fixes
      = match loads (cleanFence (pyStrip t)) with
        | some (Json.arr xs) => xs
        | _ => []) ∧
    (∀ body : String, cleanFence ("```json" ++ body ++ "```") = pyStrip body) := by
  constructor
  · simp only [analyze_image_and_get_fixes, critiqueFixes, h]
    cases hl : loads (cleanFence (pyStrip t)) with
    | none => simp
    | some j => cases j <;> simp
  · exact cleanFence_json_fenced

/-- Witness for the amended C9 at a concrete fenced response. -/
theorem C9_amended_fence_handling_witness :
    (analyze_image_and_get_fixes true (mkTextNet "```json[\"a\"]```")
        jsonLoadsStrList [0] "c").fixes
      = match jsonLoadsStrList (cleanFence (pyStrip "```json[\"a\"]```")) with
        | some (Json.arr xs) => xs
        | _ => [] :=
  (C9_amended_fence_handling (mkTextNet "```json[\"a\"]```") jsonLoadsStrList
    [0] "c" "```json[\"a\"]```" rfl).1

/-- C9 counterexample: a response wrapped in a bare Markdown code fence (a
leading ```` ``` ```` token and a trailing one).  Its unwrapped body
parses as the list `["a"]`, so the claim requires the fixes `["a"]`; the
code strips only a leading ```` ```json ```` token, the payload fails to
parse, and critique returns `[]` with a warning. -/
theorem C9_counterexample_bare_fence :
    (analyze_image_and_get_fixes true (mkTextNet "```\n[\"a\"]\n```")
        jsonLoadsStrList [0] "c").fixes = [] ∧
    (analyze_image_and_get_fixes true (mkTextNet "```\n[\"a\"]\n```")
        jsonLoadsStrList [0] "c").warned = true ∧
    jsonLoadsStrList "[\"a\"]" = some (Json.arr [Json.str "a"]) ∧
    pyStartsWith (pyStrip "```\n[\"a\"]\n```") "```" = true ∧
    pyEndsWith (pyStrip "```\n[\"a\"]\n```") "```" = true :=
  ⟨rfl, rfl, rfl, by decide, by decide⟩

/-- Witness for C4 at a concrete input (critique answers the empty list). -/
theorem C4_empty_fixes_accepts_draft_witness :
    gen_scene_handler ⟨true, some [0], 0, [], ""⟩ "Photosynthesis process"
        (okImageNet [1, 2, 3]) (.error "never") (mkTextNet "[]") jsonLoadsStrList
      = { state := ⟨true, some [0], 1,
            dictSet [] "Photosynthesis process" [1, 2, 3], ""⟩,
          outcome := .completed,
          genCalls := [generate_image true (okImageNet [1, 2, 3])
            (initialPrompt "Photosynthesis process") (some (.bytes [0]))],
          draftLocal := some [1, 2, 3] } :=
  (C4_empty_fixes_accepts_draft [0] 0 [] "" "Photosynthesis process"
    (okImageNet [1, 2, 3]) (.error "never") (mkTextNet "[]") jsonLoadsStrList
    [1, 2, 3] (by decide) rfl rfl).1

/-- Witness for C5 at a concrete input (critique returns two fixes). -/
theorem C5_repair_uses_draft_and_all_fixes_witness :
    (gen_scene_handler ⟨true, some [0], 0, [], ""⟩ "Photosynthesis process"
        (okImageNet [1, 2, 3]) (okImageNet [7]) (mkTextNet "[\"fix a\", \"fix b\"]")
        jsonLoadsStrList).genCalls.map GenResult.sent
      = [some [ReqPart.text (initialPrompt "Photosynthesis process"),
               ReqPart.inline_data ⟨"image/jpeg", [0]⟩],
         some [ReqPart.text (fixPrompt "Photosynthesis process"
                 (fixInstructions [Json.str "fix a", Json.str "fix b"])),
               ReqPart.inline_data ⟨"image/jpeg", [1, 2, 3]⟩]] :=
  (C5_repair_uses_draft_and_all_fixes [0] 0 [] "" "Photosynthesis process"
    (okImageNet [1, 2, 3]) (okImageNet [7]) (mkTextNet "[\"fix a\", \"fix b\"]")
    jsonLoadsStrList [1, 2, 3] [Json.str "fix a", Json.str "fix b"]
    (by decide) rfl rfl
    (fun h => List.cons_ne_nil (Json.str "fix a") [Json.str "fix b"] h)).1

/-- Witness for C6 at a concrete input (draft call raises). -/
theorem C6_draft_failure_leaves_store_witness :
    gen_scene_handler ⟨true, some [0], 4, [("Water cycle diagram", [5])], "kid"⟩
        "Photosynthesis process" (.error "boom") (okImageNet [7]) (mkTextNet "[]")
        jsonLoadsStrList
      = { state := ⟨true, some [0], 4, [("Water cycle diagram", [5])], "kid"⟩,
          outcome := .failed ("Error generating scene: " ++
            ("Image generation failed: " ++ "boom")),
          genCalls := [generate_image true (.error "boom")
            (initialPrompt "Photosynthesis process") (some (.bytes [0]))],
          draftLocal := none } :=
  C6_draft_failure_leaves_store [0] 4 [("Water cycle diagram", [5])] "kid"
    "Photosynthesis process" (.error "boom") (okImageNet [7]) (mkTextNet "[]")
    jsonLoadsStrList ("Image generation failed: " ++ "boom") (by decide) rfl
